import Mathlib

/-
  Verification development for the Aurora autonomous trading core.

  The relevant Python modules (backend/app/core and backend/app/ml) are
  shallowly embedded below.  Python floats are modelled as exact rationals;
  Python dicts whose values are numeric are modelled as association lists or
  as structures whose fields carry the values the code reads via dict.get.
  Python round(x, 2) (round-half-to-even) is modelled exactly by pyRound.
-/

set_option allowUnsafeReducibility true in
attribute [semireducible] Rat.add Rat.mul Rat.inv Rat.sub

namespace Aurora

/-- Round-half-to-even on rationals, the semantics of Python round()
applied to an exact value. -/
def pyRound (y : ℚ) : ℤ :=
  if y - Rat.floor y < 1/2 then Rat.floor y
  else if 1/2 < y - Rat.floor y then Rat.floor y + 1
  else if Rat.floor y % 2 = 0 then Rat.floor y else Rat.floor y + 1

/-- Python round(x, 2): round to hundredths, half to even. -/
def round2 (x : ℚ) : ℚ := (pyRound (100 * x) : ℚ) / 100

/-- Python int() applied to a rational: truncation toward zero. -/
def pyTrunc (q : ℚ) : ℤ := if 0 ≤ q then Rat.floor q else -Rat.floor (-q)

theorem ratFloor_eq (q : ℚ) : Rat.floor q = ⌊q⌋ := by
  rw [Rat.floor_def, ← Rat.floor_def']

theorem pyRound_le (y : ℚ) : (pyRound y : ℚ) ≤ y + 1/2 := by
  unfold pyRound
  rw [ratFloor_eq]
  have h1 : (⌊y⌋ : ℚ) ≤ y := Int.floor_le y
  have h2 : y < ⌊y⌋ + 1 := Int.lt_floor_add_one y
  split_ifs <;> push_cast <;> linarith

theorem pyRound_ge (y : ℚ) : y - 1/2 ≤ (pyRound y : ℚ) := by
  unfold pyRound
  rw [ratFloor_eq]
  have h1 : (⌊y⌋ : ℚ) ≤ y := Int.floor_le y
  have h2 : y < ⌊y⌋ + 1 := Int.lt_floor_add_one y
  split_ifs <;> push_cast <;> linarith

theorem pyRound_le_int (y : ℚ) (n : ℤ) (h : y ≤ (n : ℚ)) : pyRound y ≤ n := by
  unfold pyRound
  rw [ratFloor_eq]
  have h1 : (⌊y⌋ : ℚ) ≤ y := Int.floor_le y
  have hfn : ⌊y⌋ ≤ n := by
    have := Int.floor_le_floor (α := ℚ) h
    simpa using this
  split_ifs with hc1 hc2 hc3
  · exact hfn
  · have h3 : (⌊y⌋ : ℚ) < (n : ℚ) := by linarith
    have h4 : ⌊y⌋ < n := by exact_mod_cast h3
    omega
  · exact hfn
  · have h3 : (⌊y⌋ : ℚ) < (n : ℚ) := by linarith
    have h4 : ⌊y⌋ < n := by exact_mod_cast h3
    omega

theorem round2_le (x : ℚ) : round2 x ≤ x + 1/200 := by
  unfold round2
  rw [div_le_iff₀ (by norm_num : (0:ℚ) < 100)]
  have := pyRound_le (100 * x)
  linarith

theorem round2_ge (x : ℚ) : x - 1/200 ≤ round2 x := by
  unfold round2
  rw [le_div_iff₀ (by norm_num : (0:ℚ) < 100)]
  have := pyRound_ge (100 * x)
  linarith

theorem round2_le_of_le (x : ℚ) (n : ℤ) (h : 100 * x ≤ (n : ℚ)) :
    round2 x ≤ (n : ℚ) / 100 := by
  unfold round2
  have h1 : pyRound (100 * x) ≤ n := pyRound_le_int (100 * x) n h
  have h2 : (pyRound (100 * x) : ℚ) ≤ (n : ℚ) := by exact_mod_cast h1
  exact (div_le_div_iff_of_pos_right (by norm_num : (0:ℚ) < 100)).mpr h2

/- ───────────────────────── audit_logger.py ───────────────────────── -/

/-- Lowercase character list of a string, the model of str.lower(). -/
def lowerChars (s : String) : List Char := s.toList.map Char.toLower

/-- Bool test that pat is a prefix of s (character lists). -/
def leadsWith : List Char → List Char → Bool
  | [], _ => true
  | _ :: _, [] => false
  | p :: ps, c :: cs => (p == c) && leadsWith ps cs

/-- Bool test that pat occurs as a contiguous substring of s. -/
def hasSub (pat : List Char) : List Char → Bool
  | [] => leadsWith pat []
  | c :: cs => leadsWith pat (c :: cs) || hasSub pat cs

/-- Python membership test s in key.lower() for a lowercase pattern s. -/
def strContains (key pat : String) : Bool := hasSub pat.toList (lowerChars key)

/-- JSON-like value stored in an audit detail mapping: a non-mapping leaf or
a nested mapping. -/
inductive AuditVal where
  | leaf (s : String) : AuditVal
  | dict (entries : List (String × AuditVal)) : AuditVal

/-- The sensitive_keys set of AuditLogger._redact_secrets. -/
def sensitiveKeys : List String :=
  ["api_key", "secret_key", "password", "token", "jwt",
   "anthropic_api_key", "alpaca_api_key", "alpaca_secret_key"]

/-- Test from _redact_secrets: any(s in key.lower() for s in sensitive_keys). -/
def isSensitiveKey (k : String) : Bool := sensitiveKeys.any fun s => strContains k s

/-- AuditLogger._redact_secrets: dict values are recursed into, other values
under a sensitive key are replaced by the redaction marker. -/
def redactEntries : List (String × AuditVal) → List (String × AuditVal)
  | [] => []
  | (k, AuditVal.dict es) :: t => (k, AuditVal.dict (redactEntries es)) :: redactEntries t
  | (k, v) :: t =>
      (if isSensitiveKey k then (k, AuditVal.leaf "***REDACTED***") else (k, v)) :: redactEntries t

/-- Checker for the redaction guarantee: at every nesting depth, every
non-mapping value stored under a sensitive key is the redaction marker. -/
def entriesClean : List (String × AuditVal) → Bool
  | [] => true
  | (_, AuditVal.dict es) :: t => entriesClean es && entriesClean t
  | (k, AuditVal.leaf s) :: t =>
      (!isSensitiveKey k || (s == "***REDACTED***")) && entriesClean t

/- ───────────────────────── feature_engineering.py ───────────────────────── -/

/-- FEATURE_NAMES from feature_engineering.py, in source order. -/
def FEATURE_NAMES : List String :=
  ["return_1d", "return_5d", "return_10d", "return_20d",
   "high_low_ratio", "close_open_ratio",
   "price_vs_sma20", "price_vs_sma50", "price_vs_sma200",
   "gap_percentage",
   "rsi_14", "macd_signal_diff", "macd_histogram",
   "bb_position", "adx_14", "cci_20", "stoch_k", "stoch_d",
   "obv_slope", "vwap_diff", "atr_14", "atr_ratio",
   "williams_r", "parabolic_sar_signal",
   "ema12_ema26_cross", "sma20_sma50_cross",
   "volume_vs_sma20", "volume_ratio_5d",
   "keltner_position", "roc_10",
   "trend_alignment_score", "bb_squeeze",
   "volume_breakout_score", "momentum_divergence",
   "rsi_macd_agreement",
   "spy_return_1d", "vix_level", "vix_change",
   "volume_price_confirmation",
   "trend_strength_composite",
   "mean_reversion_score",
   "breakout_probability",
   "support_resistance_proximity"]

/-- Python dict.get(k, default) over an association list of numeric values. -/
def dget (d : List (String × ℚ)) (k : String) (v : ℚ) : ℚ := (d.lookup k).getD v

/-- Python dict.get(k) or 1: a missing or falsy (zero) value becomes 1. -/
def dgetTruthyOr1 (d : List (String × ℚ)) (k : String) : ℚ :=
  match d.lookup k with
  | none => 1
  | some v => if v = 0 then 1 else v

/-- FeatureEngineer.build_features.  Values are exact rationals, so the final
None/NaN cleaning pass of the source is the identity here; the entries are
listed in the assignment order of the source.  The market_context argument
plays the role of ctx = market_context or an empty dict. -/
def buildFeatures (indicators ctx : List (String × ℚ)) : List (String × ℚ) :=
  if indicators = [] then []
  else
    let return_1d := dget indicators "return_1d" 0
    let return_5d := dget indicators "return_5d" 0
    let return_10d := dget indicators "return_10d" 0
    let return_20d := dget indicators "return_20d" 0
    let high_low_ratio := dget indicators "high_low_ratio" 1
    let close_open_ratio := dget indicators "close_open_ratio" 1
    let price_vs_sma20 := dget indicators "price_vs_sma20" 1
    let price_vs_sma50 := dgetTruthyOr1 indicators "price_vs_sma50"
    let price_vs_sma200 := dgetTruthyOr1 indicators "price_vs_sma200"
    let gap_percentage := dget indicators "gap_percentage" 0
    let rsi_14 := dget indicators "rsi_14" 50
    let macd := dget indicators "macd" 0
    let macd_sig := dget indicators "macd_signal" 0
    let macd_signal_diff := if macd ≠ 0 ∧ macd_sig ≠ 0 then macd - macd_sig else 0
    let macd_histogram := dget indicators "macd_histogram" 0
    let bb_position := dget indicators "bb_position" (1/2)
    let adx_14 := dget indicators "adx_14" 20
    let cci_20 := dget indicators "cci_20" 0
    let stoch_k := dget indicators "stoch_k" 50
    let stoch_d := dget indicators "stoch_d" 50
    let obv_slope := dget indicators "obv_slope" 0
    let vwap_diff := dget indicators "vwap_diff" 0
    let atr_14 := dget indicators "atr_14" 0
    let atr_ratio := dget indicators "atr_ratio" (1/50)
    let williams_r := dget indicators "williams_r" (-50)
    let parabolic_sar_signal := dget indicators "parabolic_sar_signal" 0
    let ema12_ema26_cross := dget indicators "ema12_ema26_cross" 0
    let sma20_sma50_cross := dget indicators "sma20_sma50_cross" 0
    let volume_vs_sma20 := dget indicators "volume_vs_sma20" 1
    let volume_ratio_5d := dget indicators "volume_ratio_5d" 1
    let keltner_position := dget indicators "keltner_position" (1/2)
    let roc_10 := dget indicators "roc_10" 0
    let rsi_macd_agreement := dget indicators "rsi_macd_agreement" 0
    let volume_price_confirmation := dget indicators "volume_price_confirmation" 0
    let bb_squeeze := dget indicators "bb_squeeze" 0
    let trend_alignment_score :=
      ((if ema12_ema26_cross > 0 then (1:ℚ) else -1) +
       (if sma20_sma50_cross > 0 then (1:ℚ) else -1) +
       (if macd_histogram > 0 then (1:ℚ) else -1) +
       (if parabolic_sar_signal > 0 then (1:ℚ) else -1)) / 4
    let volume_breakout_score := min (volume_vs_sma20 / 2) 1
    let momentum_divergence : ℚ :=
      if (decide (rsi_14 > 50)) = (decide (return_5d > 0)) then 0 else 1
    let spy_return_1d := dget ctx "spy_return_1d" 0
    let vix_level := dget ctx "vix" 20
    let vix_change := dget ctx "vix_change" 0
    let trend_strength_composite := |adx_14 / 50| * trend_alignment_score
    let mean_reversion_score := |1 - price_vs_sma20|
    let breakout_probability := min (volume_breakout_score * |bb_position - 1/2| * 2) 1
    let support_resistance_proximity := min bb_position (1 - bb_position)
    [("return_1d", return_1d), ("return_5d", return_5d),
     ("return_10d", return_10d), ("return_20d", return_20d),
     ("high_low_ratio", high_low_ratio), ("close_open_ratio", close_open_ratio),
     ("price_vs_sma20", price_vs_sma20), ("price_vs_sma50", price_vs_sma50),
     ("price_vs_sma200", price_vs_sma200), ("gap_percentage", gap_percentage),
     ("rsi_14", rsi_14), ("macd_signal_diff", macd_signal_diff),
     ("macd_histogram", macd_histogram), ("bb_position", bb_position),
     ("adx_14", adx_14), ("cci_20", cci_20), ("stoch_k", stoch_k),
     ("stoch_d", stoch_d), ("obv_slope", obv_slope), ("vwap_diff", vwap_diff),
     ("atr_14", atr_14), ("atr_ratio", atr_ratio), ("williams_r", williams_r),
     ("parabolic_sar_signal", parabolic_sar_signal),
     ("ema12_ema26_cross", ema12_ema26_cross),
     ("sma20_sma50_cross", sma20_sma50_cross),
     ("volume_vs_sma20", volume_vs_sma20), ("volume_ratio_5d", volume_ratio_5d),
     ("keltner_position", keltner_position), ("roc_10", roc_10),
     ("rsi_macd_agreement", rsi_macd_agreement),
     ("volume_price_confirmation", volume_price_confirmation),
     ("bb_squeeze", bb_squeeze),
     ("trend_alignment_score", trend_alignment_score),
     ("volume_breakout_score", volume_breakout_score),
     ("momentum_divergence", momentum_divergence),
     ("spy_return_1d", spy_return_1d), ("vix_level", vix_level),
     ("vix_change", vix_change),
     ("trend_strength_composite", trend_strength_composite),
     ("mean_reversion_score", mean_reversion_score),
     ("breakout_probability", breakout_probability),
     ("support_resistance_proximity", support_resistance_proximity)]

/- ───────────────────────── signal_engine.py ───────────────────────── -/

/-- SignalEngine.MIN_CONFIDENCE. -/
def MIN_CONFIDENCE : ℚ := 13/20

/-- Row persisted by SignalEngine.generate_signal. -/
structure SignalRec where
  action : String
  confidence : ℚ
  features_snapshot : List (String × ℚ)
deriving DecidableEq

/-- SignalEngine._predict_heuristic: weighted heuristic score over the
feature vector, returning an action and a confidence.  weights_total is
always 7.5, so the normalization guard weights_total greater than 0 is
taken. -/
def predictHeuristic (f : List (String × ℚ)) : String × ℚ :=
  let rsi := dget f "rsi_14" 50
  let rsiScore : ℚ :=
    if rsi < 30 then 2 else if rsi > 70 then -2
    else if rsi < 45 then 1/2 else if rsi > 55 then -(1/2) else 0
  let macd_hist := dget f "macd_histogram" 0
  let macdScore : ℚ := if macd_hist > 0 then 1 else -1
  let trend := dget f "trend_alignment_score" 0
  let vol_confirm := dget f "volume_price_confirmation" 0
  let bb_pos := dget f "bb_position" (1/2)
  let bbScore : ℚ := if bb_pos < 1/5 then 3/2 else if bb_pos > 4/5 then -(3/2) else 0
  let score := rsiScore + macdScore + trend * 2 + vol_confirm * 1 + bbScore
  let weights_total : ℚ := 15/2
  let normalized := score / weights_total
  if normalized > 3/10 then ("BUY", min (1/2 + normalized * (3/10)) (17/20))
  else if normalized < -(3/10) then ("SELL", min (1/2 + |normalized| * (3/10)) (17/20))
  else ("HOLD", 1/2 + (1 - |normalized|) * (1/5))

/-- SignalEngine.generate_signal in the heuristic configuration (no serialized
model on disk, so _predict falls back to _predict_heuristic).  Returns the
persisted Signal row, or none when no row is added. -/
def generateSignal (indicators ctx : List (String × ℚ)) : Option SignalRec :=
  let features := buildFeatures indicators ctx
  if features = [] then none
  else
    let pr := predictHeuristic features
    if pr.2 < MIN_CONFIDENCE then none
    else some ⟨pr.1, pr.2, features⟩

/- ───────────────────────── claude_analyst.py ───────────────────────── -/

/-- Structured analyst verdict (AnalystReview dataclass); token counters are
omitted as they play no role in the reviewed claims. -/
structure AnalystReviewRec where
  adjusted_confidence : ℚ
  confidence_adjustment : ℤ
  position_sizing : String
  risk_flags : List String
  approve : Bool
deriving DecidableEq

/-- Outcome of the LLM API call made inside review_signal: a successfully
parsed verdict, a response that fails to parse, or a transport/API error. -/
inductive ApiOutcome where
  | ok (review : AnalystReviewRec) : ApiOutcome
  | parseError : ApiOutcome
  | apiError : ApiOutcome
deriving DecidableEq

/-- Audit event as appended by AuditLogger.log: event type plus the
decision_chain_id it carries. -/
structure AuditEvent where
  event_type : String
  chain_id : Option ℕ
deriving DecidableEq

/-- ClaudeAnalyst.review_signal for one invocation: the daily-quota state is
the Boolean quotaExhausted (reviews_today at or above the per-day limit), and
the API interaction outcome is abstracted by ApiOutcome.  Returns the review
and the list of audit events appended during the call. -/
def reviewSignal (signalConfidence : ℚ) (quotaExhausted : Bool)
    (outcome : ApiOutcome) (chainId : Option ℕ) :
    AnalystReviewRec × List AuditEvent :=
  if quotaExhausted then
    (⟨signalConfidence * (9/10), -10, "conservative", ["review_limit_reached"],
      decide (signalConfidence > 7/10)⟩, [])
  else
    match outcome with
    | ApiOutcome.ok r => (r, [⟨"claude_review", chainId⟩])
    | ApiOutcome.parseError =>
        (⟨signalConfidence * (9/10), -10, "conservative", ["parse_error"],
          decide (signalConfidence > 7/10)⟩, [⟨"claude_review", chainId⟩])
    | ApiOutcome.apiError =>
        (⟨signalConfidence * (17/20), -15, "conservative", ["api_error"],
          decide (signalConfidence > 18/25)⟩, [])

/- ───────────────────────── risk_manager.py ───────────────────────── -/

/-- Circuit breaker levels. -/
inductive Level where
  | NONE : Level
  | YELLOW : Level
  | ORANGE : Level
  | RED : Level
deriving DecidableEq

/-- The risk-limit settings read by RiskManager (config.py Settings). -/
structure RiskSettings where
  max_position_pct : ℚ
  max_daily_loss_pct : ℚ
  max_weekly_loss_pct : ℚ
  max_monthly_loss_pct : ℚ
  max_drawdown_pct : ℚ
  max_open_positions : ℕ
  max_trades_per_day : ℕ
deriving DecidableEq

/-- Clamped limit: min(settings.max_position_pct, HARD_MAX_POSITION_PCT). -/
def maxPositionPct (s : RiskSettings) : ℚ := min s.max_position_pct 10

/-- Clamped limit: min(settings.max_daily_loss_pct, 5). -/
def maxDailyLossPct (s : RiskSettings) : ℚ := min s.max_daily_loss_pct 5

/-- Clamped limit: min(settings.max_weekly_loss_pct, 10). -/
def maxWeeklyLossPct (s : RiskSettings) : ℚ := min s.max_weekly_loss_pct 10

/-- Clamped limit: min(settings.max_monthly_loss_pct, 15). -/
def maxMonthlyLossPct (s : RiskSettings) : ℚ := min s.max_monthly_loss_pct 15

/-- Clamped limit: min(settings.max_drawdown_pct, 20). -/
def maxDrawdownPct (s : RiskSettings) : ℚ := min s.max_drawdown_pct 20

/-- Clamped limit: min(settings.max_open_positions, 15). -/
def maxOpenPositions (s : RiskSettings) : ℕ := min s.max_open_positions 15

/-- Clamped limit: min(settings.max_trades_per_day, 20). -/
def maxTradesPerDay (s : RiskSettings) : ℕ := min s.max_trades_per_day 20

/-- Portfolio snapshot dict as read by the risk manager, with the fields the
code reads via dict.get (a missing key yields the same default the code
supplies, so plain fields cover all dict inputs). -/
structure PortfolioCtx where
  trades_today : ℕ
  total_exposure_pct : ℚ
  open_positions_count : ℕ
  sector_exposure : List (String × ℚ)
  daily_pnl_pct : ℚ
  weekly_pnl_pct : ℚ
  monthly_pnl_pct : ℚ
  current_drawdown_pct : ℚ
deriving DecidableEq

/-- RiskCheckResult dataclass. -/
structure RiskCheckResult where
  approved : Bool
  reason : String
  adjusted_size_pct : Option ℚ
  warnings : List String
deriving DecidableEq

/-- Step 10 of pre_trade_check: the market-timing rejection test as the code
computes it from the UTC wall clock (hour, minute). -/
def timingReject (hour minute : ℕ) : Bool :=
  let h : ℤ := hour
  let m : ℤ := minute
  let market_open_minutes : ℤ := if h ≥ 14 then (h - 14) * 60 + (m - 30) else 0
  let market_close_minutes : ℤ := if h < 21 then (21 - h) * 60 - m else 0
  (0 < market_open_minutes && market_open_minutes < 15) ||
  (0 < market_close_minutes && market_close_minutes < 10)

/-- Rejection reason of step 10 (which of the two windows matched). -/
def timingReason (hour minute : ℕ) : String :=
  let openMin : ℤ := if (hour : ℤ) ≥ 14 then ((hour : ℤ) - 14) * 60 + ((minute : ℤ) - 30) else 0
  if 0 < openMin ∧ openMin < 15 then "No trades in first 15 minutes after open"
  else "No trades in last 10 minutes before close"

/-- Sector warnings of step 8 (non-fatal). -/
def sectorWarnings (sector_exposure : List (String × ℚ)) : List String :=
  sector_exposure.filterMap fun p =>
    if p.2 > 30 then some ("Sector " ++ p.1 ++ " exposure exceeds recommended 30%") else none

/-- Step 4, first half: adjusted_pct = min(position_pct, max_position_pct). -/
def baseSize (s : RiskSettings) (position_pct : ℚ) : ℚ :=
  min position_pct (maxPositionPct s)

/-- Step 4, second half: halve the size under a YELLOW circuit breaker. -/
def sizeAfterYellow (s : RiskSettings) (breaker : Level) (position_pct : ℚ) : ℚ :=
  if breaker = Level.YELLOW then baseSize s position_pct * (1/2) else baseSize s position_pct

/-- Step 5 adjustment: halve the size when 25 is less than VIX (the hard
rejection at VIX above 35 is handled in the main pipeline). -/
def sizeAfterVix (s : RiskSettings) (breaker : Level) (position_pct vix : ℚ) : ℚ :=
  if vix > 25 then sizeAfterYellow s breaker position_pct * (1/2)
  else sizeAfterYellow s breaker position_pct

/-- Step 9: cap the adjusted size at the 15 percent single-stock ceiling. -/
def sizeAfterCap (s : RiskSettings) (breaker : Level) (position_pct vix : ℚ) : ℚ :=
  if sizeAfterVix s breaker position_pct vix > 15 then 15
  else sizeAfterVix s breaker position_pct vix

/-- Warnings accumulated by a pre_trade_check run that reaches approval. -/
def checkWarnings (s : RiskSettings) (breaker : Level) (position_pct vix : ℚ)
    (pf : PortfolioCtx) : List String :=
  (if breaker = Level.YELLOW then ["YELLOW circuit breaker - position size halved"] else []) ++
  (if vix > 25 then ["High VIX - position size halved"] else []) ++
  sectorWarnings pf.sector_exposure ++
  (if sizeAfterVix s breaker position_pct vix > 15
     then ["Position capped to 15% single stock limit"] else [])

/-- RiskManager.pre_trade_check as a pure function of its inputs, the
in-memory circuit-breaker level and the UTC wall clock.  Formatted values
inside rejection reasons and warnings are abstracted to fixed strings; the
size-adjustment chain of steps 4, 5 and 9 is factored into the defs above. -/
def preTradeCheck (s : RiskSettings) (breaker : Level) (action : String)
    (confidence : ℚ) (position_pct : ℚ) (pf : PortfolioCtx) (vix : ℚ)
    (hour minute : ℕ) : RiskCheckResult :=
  if breaker = Level.RED then
    ⟨false, "RED circuit breaker active - system halted", none, []⟩
  else if breaker = Level.ORANGE ∧ action ≠ "SELL" then
    ⟨false, "ORANGE circuit breaker - only exits allowed", none, []⟩
  else if confidence < 3/5 then
    ⟨false, "Confidence below minimum", none, []⟩
  else if maxTradesPerDay s ≤ pf.trades_today then
    ⟨false, "Daily trade limit reached", none, []⟩
  else if vix > 35 then
    ⟨false, "VIX exceeds max threshold (35.0)", none, []⟩
  else if pf.total_exposure_pct + sizeAfterVix s breaker position_pct vix > 80 then
    ⟨false, "Total exposure would exceed 80%", none, []⟩
  else if action = "BUY" ∧ maxOpenPositions s ≤ pf.open_positions_count then
    ⟨false, "Max open positions reached", none, []⟩
  else if timingReject hour minute then
    ⟨false, timingReason hour minute, none, []⟩
  else
    ⟨true, "", some (sizeAfterCap s breaker position_pct vix),
      checkWarnings s breaker position_pct vix pf⟩

/-- Loss as the circuit-breaker evaluation derives it from a signed pnl
percentage: absolute value of a negative pnl, zero otherwise. -/
def lossOf (pnl : ℚ) : ℚ := if pnl < 0 then |pnl| else 0

/-- RiskManager.evaluate_circuit_breakers: the new level computed from a
portfolio snapshot (the state write, risk-event row and audit entry on a
level change do not affect the returned level). -/
def evaluateCircuitBreakers (s : RiskSettings) (pf : PortfolioCtx) : Level :=
  let daily_loss := if pf.daily_pnl_pct < 0 then |pf.daily_pnl_pct| else 0
  let weekly_loss := if pf.weekly_pnl_pct < 0 then |pf.weekly_pnl_pct| else 0
  let monthly_loss := if pf.monthly_pnl_pct < 0 then |pf.monthly_pnl_pct| else 0
  let drawdown := pf.current_drawdown_pct
  if monthly_loss > maxMonthlyLossPct s ∨ drawdown > maxDrawdownPct s then Level.RED
  else if daily_loss > maxDailyLossPct s ∨ weekly_loss > maxWeeklyLossPct s then Level.ORANGE
  else if daily_loss > maxDailyLossPct s * (1/2) then Level.YELLOW
  else Level.NONE

/- ───────────────────────── trade_executor.py ───────────────────────── -/

/-- PositionSize dataclass. -/
structure PositionSize where
  shares : ℤ
  dollar_amount : ℚ
  allocation_pct : ℚ
  limit_price : ℚ
  stop_price : ℚ
  target_price : ℚ
  risk_reward_ratio : ℚ
deriving DecidableEq

/-- Sizing multiplier dict lookup with default 0.5 for any unknown label. -/
def sizingMultiplier (position_sizing : String) : ℚ :=
  if position_sizing = "conservative" then 1/2
  else if position_sizing = "normal" then 1
  else if position_sizing = "aggressive" then 5/4
  else 1/2

/-- TradeExecutor.calculate_position.  current_price is
signal.get(current_price, 0); the ATR is the features_snapshot atr_14 entry
with fallback 2 percent of price when the key is absent. -/
def calculatePosition (current_price : ℚ) (features : List (String × ℚ))
    (portfolio_value : ℚ) (allocation_pct : ℚ) (position_sizing : String) :
    PositionSize :=
  let atr := (features.lookup "atr_14").getD (current_price * (1/50))
  let final_pct := allocation_pct * sizingMultiplier position_sizing
  let dollar_amount := portfolio_value * (final_pct / 100)
  let shares0 : ℤ := if current_price > 0 then pyTrunc (dollar_amount / current_price) else 0
  let shares := if shares0 ≤ 0 then 1 else shares0
  let stop_price := round2 (current_price - 2 * atr)
  let target_price := round2 (current_price + 3 * atr)
  let limit_price := round2 (current_price * (1001/1000))
  let risk := current_price - stop_price
  let reward := target_price - current_price
  let rr_ratio := if risk > 0 then round2 (reward / risk) else 0
  ⟨shares, round2 ((shares : ℚ) * current_price), round2 final_pct,
   limit_price, stop_price, target_price, rr_ratio⟩

/-- Trade row fields populated by TradeExecutor.execute. -/
structure TradeRec where
  side : String
  shares : ℤ
  entry_price : ℚ
  stop_price : ℚ
  target_price : ℚ
  allocation_pct : ℚ
  dollar_amount : ℚ
deriving DecidableEq

/-- Python x or default on an optional float: None and 0.0 are falsy. -/
def pyOrQ (o : Option ℚ) (d : ℚ) : ℚ :=
  match o with
  | none => d
  | some x => if x = 0 then d else x

/-- TradeExecutor.execute: risk check (with position_pct set to the raw
settings.max_position_pct), sizing with the approved adjusted size or the
falsy fallback, then the Trade row recorded after a successful bracket
order (orderOk abstracts the broker call outcome). -/
def executeTrade (s : RiskSettings) (breaker : Level) (action : String)
    (current_price : ℚ) (features : List (String × ℚ))
    (review : AnalystReviewRec) (pf : PortfolioCtx) (equity vix : ℚ)
    (hour minute : ℕ) (orderOk : Bool) : Option TradeRec :=
  let rc := preTradeCheck s breaker action review.adjusted_confidence
    s.max_position_pct pf vix hour minute
  if rc.approved = false then none
  else
    let alloc := pyOrQ rc.adjusted_size_pct s.max_position_pct
    let pos := calculatePosition current_price features equity alloc review.position_sizing
    if pos.shares ≤ 0 then none
    else if orderOk = false then none
    else some ⟨if action = "BUY" then "buy" else "sell", pos.shares,
      pos.limit_price, pos.stop_price, pos.target_price,
      pos.allocation_pct, pos.dollar_amount⟩

/- ───────────────────────── portfolio_tracker.py ───────────────────────── -/

/-- Portfolio snapshot row fields relevant to the tracked claims. -/
structure SnapshotRec where
  total_equity : ℚ
  cash : ℚ
  daily_pnl : ℚ
  daily_pnl_pct : ℚ
  peak_equity : ℚ
  current_drawdown_pct : ℚ
deriving DecidableEq

/-- PortfolioTracker.snapshot on a fetched account state: equity, cash and
last_equity from the broker account payload.  peak_equity is stored as
max(equity, equity) and current_drawdown_pct as 0.0, exactly as the source
does. -/
def snapshot (equity cash last_equity : ℚ) : SnapshotRec :=
  let daily_pnl := equity - last_equity
  let daily_pnl_pct := if last_equity > 0 then daily_pnl / last_equity * 100 else 0
  ⟨equity, cash, daily_pnl, daily_pnl_pct, max equity equity, 0⟩

/- ───────────────────────── helper lemmas ───────────────────────── -/

theorem sizeAfterCap_le_ten (s : RiskSettings) (breaker : Level) (p vix : ℚ) :
    sizeAfterCap s breaker p vix ≤ 10 := by
  have hb : min p (maxPositionPct s) ≤ 10 :=
    le_trans (min_le_right _ _) (min_le_right _ _)
  unfold sizeAfterCap sizeAfterVix sizeAfterYellow baseSize
  split_ifs <;> linarith

theorem sizeAfterCap_eq_zero (s : RiskSettings) (breaker : Level) (p vix : ℚ)
    (h0 : sizeAfterCap s breaker p vix = 0) : min p (maxPositionPct s) = 0 := by
  unfold sizeAfterCap sizeAfterVix sizeAfterYellow baseSize at h0
  split_ifs at h0 <;> linarith

theorem sizeAfterCap_le_bounds (s : RiskSettings) (breaker : Level) (p vix : ℚ)
    (hp : 0 ≤ p) (hs : 0 ≤ s.max_position_pct) :
    sizeAfterCap s breaker p vix ≤ p ∧ sizeAfterCap s breaker p vix ≤ maxPositionPct s := by
  have h1 : min p (maxPositionPct s) ≤ p := min_le_left _ _
  have h2 : min p (maxPositionPct s) ≤ maxPositionPct s := min_le_right _ _
  have h3 : (0:ℚ) ≤ min p (maxPositionPct s) := le_min hp (le_min hs (by norm_num))
  constructor <;>
    (unfold sizeAfterCap sizeAfterVix sizeAfterYellow baseSize; split_ifs <;> linarith)

theorem preTradeCheck_cases (s : RiskSettings) (breaker : Level) (action : String)
    (conf p : ℚ) (pf : PortfolioCtx) (vix : ℚ) (hr mi : ℕ) :
    ((preTradeCheck s breaker action conf p pf vix hr mi).approved = false ∧
     (preTradeCheck s breaker action conf p pf vix hr mi).adjusted_size_pct = none) ∨
    ((preTradeCheck s breaker action conf p pf vix hr mi).approved = true ∧
     (preTradeCheck s breaker action conf p pf vix hr mi).adjusted_size_pct =
       some (sizeAfterCap s breaker p vix)) := by
  unfold preTradeCheck
  split_ifs <;> first | exact Or.inl ⟨rfl, rfl⟩ | exact Or.inr ⟨rfl, rfl⟩

theorem min_clamp_eq_zero (x : ℚ) (h : min x (min x 10) = 0) : x = 0 := by
  rcases le_total x 10 with hle | hle
  · rw [min_eq_left hle, min_self] at h
    exact h
  · rw [min_eq_right hle, min_eq_right (le_trans hle (by norm_num))] at h
    norm_num at h

theorem calcPosition_alloc (price : ℚ) (features : List (String × ℚ))
    (equity alloc : ℚ) (sizing : String) :
    (calculatePosition price features equity alloc sizing).allocation_pct =
      round2 (alloc * sizingMultiplier sizing) := rfl

theorem round2_le_twelve_and_half (x : ℚ) (h : 100 * x ≤ 1250) : round2 x ≤ 25/2 := by
  have := round2_le_of_le x 1250 (by exact_mod_cast h)
  calc round2 x ≤ ((1250 : ℤ) : ℚ) / 100 := this
    _ = 25/2 := by norm_num

/- ───────────────────── concrete inputs used below ───────────────────── -/

/-- Risk settings at the documented configuration defaults. -/
def defaultSettings : RiskSettings := ⟨5, 3, 5, 8, 12, 8, 10⟩

/-- Risk settings with the configured position limit at the hard cap. -/
def capSettings : RiskSettings := ⟨10, 3, 5, 8, 12, 8, 10⟩

/-- Risk settings with a negative configured position limit. -/
def negSettings : RiskSettings := ⟨-8, 3, 5, 8, 12, 8, 10⟩

/-- A benign portfolio snapshot: no trades today, no exposure, no losses. -/
def emptyPortfolio : PortfolioCtx := ⟨0, 0, 0, [], 0, 0, 0, 0⟩

/-- An analyst verdict recommending aggressive sizing. -/
def aggressiveReview : AnalystReviewRec := ⟨4/5, 10, "aggressive", [], true⟩

/-- An analyst verdict recommending normal sizing. -/
def normalReview : AnalystReviewRec := ⟨7/10, 0, "normal", [], true⟩

/-- Indicator input whose heuristic score is exactly neutral. -/
def holdIndicators : List (String × ℚ) :=
  [("parabolic_sar_signal", 1), ("ema12_ema26_cross", 1), ("sma20_sma50_cross", 1)]

/-- The Signal row generate_signal persists on holdIndicators. -/
def holdSignal : SignalRec := ⟨"HOLD", 7/10, buildFeatures holdIndicators []⟩

/-- The Trade row executeTrade records in the witness scenario below. -/
def witnessTrade : TradeRec := ⟨"buy", 5, 1001/10, 96, 106, 5, 500⟩

/- ───────────────────────── claim theorems ───────────────────────── -/

theorem execute_alloc_le (s : RiskSettings) (breaker : Level) (vix price equity : ℚ)
    (features : List (String × ℚ)) (sizing : String) :
    (calculatePosition price features equity
       (pyOrQ (some (sizeAfterCap s breaker s.max_position_pct vix)) s.max_position_pct)
       sizing).allocation_pct ≤ 25/2 := by
  rw [calcPosition_alloc]
  by_cases h0 : sizeAfterCap s breaker s.max_position_pct vix = 0
  · have hx : s.max_position_pct = 0 := by
      have hz := sizeAfterCap_eq_zero s breaker s.max_position_pct vix h0
      unfold maxPositionPct at hz
      exact min_clamp_eq_zero _ hz
    rw [h0]
    have hp0 : pyOrQ (some (0:ℚ)) s.max_position_pct = 0 := by
      simp [pyOrQ, hx]
    rw [hp0, zero_mul]
    exact round2_le_twelve_and_half 0 (by norm_num)
  · have hcap10 := sizeAfterCap_le_ten s breaker s.max_position_pct vix
    have hp1 : pyOrQ (some (sizeAfterCap s breaker s.max_position_pct vix))
        s.max_position_pct = sizeAfterCap s breaker s.max_position_pct vix := by
      simp [pyOrQ, h0]
    rw [hp1]
    apply round2_le_twelve_and_half
    unfold sizingMultiplier
    split_ifs <;> linarith

/-- C1 counterexample: a trade produced by the execute pipeline with the
position limit configured at 10 and an aggressive analyst verdict carries
allocation_pct = 12.5, which exceeds the claimed hard cap of 10. -/
theorem C1_hard_cap_counterexample :
    (executeTrade capSettings Level.NONE "BUY" 100 [("atr_14", 2)] aggressiveReview
        emptyPortfolio 10000 0 15 0 true).map TradeRec.allocation_pct = some (25/2) ∧
    ¬ ((25/2 : ℚ) ≤ 10) := by
  exact ⟨by decide, by norm_num⟩

/-- C1 amended: for every Trade row created by the execute pipeline,
allocation_pct is at most 12.5 = 1.25 times the hard position cap, because
the risk gate bounds the approved size by 10 before the analyst sizing
multiplier (at most 1.25) is applied. -/
theorem C1_allocation_pct_bound (s : RiskSettings) (breaker : Level) (action : String)
    (price : ℚ) (features : List (String × ℚ)) (review : AnalystReviewRec)
    (pf : PortfolioCtx) (equity vix : ℚ) (hr mi : ℕ) (orderOk : Bool) (t : TradeRec)
    (ht : executeTrade s breaker action price features review pf equity vix hr mi orderOk
            = some t) :
    t.allocation_pct ≤ 25/2 := by
  rcases preTradeCheck_cases s breaker action review.adjusted_confidence
      s.max_position_pct pf vix hr mi with ⟨hap, _⟩ | ⟨hap, hadj⟩
  · simp only [executeTrade] at ht
    rw [hap] at ht
    simp at ht
  · simp only [executeTrade] at ht
    rw [hap, hadj, if_neg (show ¬((true : Bool) = false) by simp)] at ht
    split_ifs at ht with hc1 hc2 hc3 <;>
      (obtain rfl := Option.some.inj ht
       exact execute_alloc_le s breaker vix price equity features review.position_sizing)

/-- C1 witness: a concrete run of the pipeline records a trade, and the
amended bound applies to it. -/
theorem C1_allocation_pct_bound_witness :
    executeTrade defaultSettings Level.NONE "BUY" 100 [("atr_14", 2)] normalReview
        emptyPortfolio 10000 0 15 0 true = some witnessTrade ∧
    witnessTrade.allocation_pct ≤ 25/2 :=
  have h : executeTrade defaultSettings Level.NONE "BUY" 100 [("atr_14", 2)] normalReview
      emptyPortfolio 10000 0 15 0 true = some witnessTrade := by decide
  ⟨h, C1_allocation_pct_bound defaultSettings Level.NONE "BUY" 100 [("atr_14", 2)]
      normalReview emptyPortfolio 10000 0 15 0 true witnessTrade h⟩

/-- C2 counterexample: the feature pipeline produces a snapshot whose atr_14
entry is 0 (any indicator dict without that key), and on such a snapshot the
executor prices violate stop less than entry less than target: stop = target
= price while entry = round(price times 1.001, 2) is above both. -/
theorem C2_price_order_counterexample :
    (buildFeatures [("rsi_14", 50)] []).lookup "atr_14" = some 0 ∧
    ¬ ((calculatePosition 100 (buildFeatures [("rsi_14", 50)] []) 10000 5 "normal").stop_price <
         (calculatePosition 100 (buildFeatures [("rsi_14", 50)] []) 10000 5 "normal").limit_price ∧
       (calculatePosition 100 (buildFeatures [("rsi_14", 50)] []) 10000 5 "normal").limit_price <
         (calculatePosition 100 (buildFeatures [("rsi_14", 50)] []) 10000 5 "normal").target_price) := by
  exact ⟨by decide, by decide⟩

/-- C2 amended: for a buy, stop_price is below entry_price is below
target_price whenever the snapshot ATR is large enough that the 2-ATR and
3-ATR distances survive the 0.1 percent entry premium and cent rounding:
0.001 price + 2 ATR and 3 ATR - 0.001 price must both exceed one cent. -/
theorem C2_price_order (price atr equity alloc : ℚ) (features : List (String × ℚ))
    (sizing : String)
    (hatr : features.lookup "atr_14" = some atr)
    (h1 : 1/100 < price * (1/1000) + 2 * atr)
    (h2 : 1/100 < 3 * atr - price * (1/1000)) :
    (calculatePosition price features equity alloc sizing).stop_price <
      (calculatePosition price features equity alloc sizing).limit_price ∧
    (calculatePosition price features equity alloc sizing).limit_price <
      (calculatePosition price features equity alloc sizing).target_price := by
  unfold calculatePosition
  rw [hatr]
  have hstop := round2_le (price - 2 * atr)
  have hlim1 := round2_ge (price * (1001/1000))
  have hlim2 := round2_le (price * (1001/1000))
  have htar := round2_ge (price + 3 * atr)
  constructor <;> dsimp only [Option.getD] <;> linarith

/-- C2 witness: the amended ordering holds at price 100 and ATR 2. -/
theorem C2_price_order_witness :
    (calculatePosition 100 [("atr_14", 2)] 10000 5 "normal").stop_price <
      (calculatePosition 100 [("atr_14", 2)] 10000 5 "normal").limit_price ∧
    (calculatePosition 100 [("atr_14", 2)] 10000 5 "normal").limit_price <
      (calculatePosition 100 [("atr_14", 2)] 10000 5 "normal").target_price :=
  C2_price_order 100 2 10000 5 [("atr_14", 2)] "normal" (by decide)
    (by norm_num) (by norm_num)

/-- C3 confirmed: evaluate_circuit_breakers realises exactly the first-match
precedence of the claim, with losses derived from negative pnl percentages
and the drawdown read directly. -/
theorem C3_circuit_breaker_precedence (s : RiskSettings) (pf : PortfolioCtx) :
    (evaluateCircuitBreakers s pf = Level.RED ↔
      (lossOf pf.monthly_pnl_pct > maxMonthlyLossPct s ∨
       pf.current_drawdown_pct > maxDrawdownPct s)) ∧
    (evaluateCircuitBreakers s pf = Level.ORANGE ↔
      (¬(lossOf pf.monthly_pnl_pct > maxMonthlyLossPct s ∨
         pf.current_drawdown_pct > maxDrawdownPct s) ∧
       (lossOf pf.daily_pnl_pct > maxDailyLossPct s ∨
        lossOf pf.weekly_pnl_pct > maxWeeklyLossPct s))) ∧
    (evaluateCircuitBreakers s pf = Level.YELLOW ↔
      (¬(lossOf pf.monthly_pnl_pct > maxMonthlyLossPct s ∨
         pf.current_drawdown_pct > maxDrawdownPct s) ∧
       ¬(lossOf pf.daily_pnl_pct > maxDailyLossPct s ∨
         lossOf pf.weekly_pnl_pct > maxWeeklyLossPct s) ∧
       lossOf pf.daily_pnl_pct > maxDailyLossPct s * (1/2))) ∧
    (evaluateCircuitBreakers s pf = Level.NONE ↔
      (¬(lossOf pf.monthly_pnl_pct > maxMonthlyLossPct s ∨
         pf.current_drawdown_pct > maxDrawdownPct s) ∧
       ¬(lossOf pf.daily_pnl_pct > maxDailyLossPct s ∨
         lossOf pf.weekly_pnl_pct > maxWeeklyLossPct s) ∧
       ¬(lossOf pf.daily_pnl_pct > maxDailyLossPct s * (1/2)))) := by
  have e : evaluateCircuitBreakers s pf =
      (if lossOf pf.monthly_pnl_pct > maxMonthlyLossPct s ∨
          pf.current_drawdown_pct > maxDrawdownPct s then Level.RED
       else if lossOf pf.daily_pnl_pct > maxDailyLossPct s ∨
          lossOf pf.weekly_pnl_pct > maxWeeklyLossPct s then Level.ORANGE
       else if lossOf pf.daily_pnl_pct > maxDailyLossPct s * (1/2) then Level.YELLOW
       else Level.NONE) := rfl
  rw [e]
  split_ifs with h1 h2 h3 <;> refine ⟨?_, ?_, ?_, ?_⟩ <;> simp_all

/-- C4 counterexample: the quota-exhausted fallback and the API-error
fallback of review_signal both return without appending any audit event, so
no claude_review event is emitted on those paths. -/
theorem C4_claude_review_counterexample :
    (reviewSignal (4/5) true ApiOutcome.parseError (some 1)).2 = [] ∧
    (reviewSignal (4/5) false ApiOutcome.apiError (some 1)).2 = [] := by
  exact ⟨by decide, by decide⟩

/-- C4 amended: review_signal appends a claude_review audit event carrying
the decision chain id exactly when the daily quota is not exhausted and the
API call does not fail: the parsed-verdict and parse-error paths emit it,
the quota and API-error fallbacks do not. -/
theorem C4_claude_review_iff (conf : ℚ) (q : Bool) (o : ApiOutcome) (cid : Option ℕ) :
    (AuditEvent.mk "claude_review" cid ∈ (reviewSignal conf q o cid).2) ↔
      (q = false ∧ o ≠ ApiOutcome.apiError) := by
  cases q <;> cases o <;> simp [reviewSignal]

/-- C5 counterexample: on a neutral indicator input the heuristic returns
HOLD with confidence 0.7, which is at least MIN_CONFIDENCE, and
generate_signal persists that HOLD signal. -/
theorem C5_hold_persisted_counterexample :
    (generateSignal holdIndicators []).map SignalRec.action = some "HOLD" ∧
    (generateSignal holdIndicators []).map SignalRec.confidence = some (7/10) ∧
    MIN_CONFIDENCE ≤ 7/10 := by
  exact ⟨by decide, by decide, by decide⟩

/-- C5 amended: every Signal row persisted by generate_signal has confidence
at least MIN_CONFIDENCE = 0.65; the engine applies no HOLD filter, so a HOLD
action above the threshold is persisted (the orchestrator skips it later). -/
theorem C5_persisted_confidence (indicators ctx : List (String × ℚ)) (sig : SignalRec)
    (h : generateSignal indicators ctx = some sig) : MIN_CONFIDENCE ≤ sig.confidence := by
  simp only [generateSignal] at h
  split_ifs at h with h1 h2
  · obtain rfl := Option.some.inj h
    exact not_lt.mp h2

/-- C5 witness: the amended bound applies to the persisted HOLD signal. -/
theorem C5_persisted_confidence_witness :
    generateSignal holdIndicators [] = some holdSignal ∧
    MIN_CONFIDENCE ≤ holdSignal.confidence :=
  have h : generateSignal holdIndicators [] = some holdSignal := by decide
  ⟨h, C5_persisted_confidence holdIndicators [] holdSignal h⟩

/-- C6 counterexample: a key named secret contains the claimed sensitive
substring secret, yet _redact_secrets leaves its value untouched, because the
redaction set only matches password, token, jwt and the api_key or
secret_key compounds. -/
theorem C6_redaction_counterexample :
    redactEntries [("secret", AuditVal.leaf "hunter2")] =
      [("secret", AuditVal.leaf "hunter2")] ∧
    strContains "secret" "secret" = true ∧ "hunter2" ≠ "***REDACTED***" := by
  refine ⟨?_, by decide, by decide⟩
  simp [redactEntries, show isSensitiveKey "secret" = false from by decide]

/-- C6 amended: after redaction, at every nesting depth every non-mapping
value stored under a key that contains one of the eight configured sensitive
substrings (api_key, secret_key, password, token, jwt and the three provider
key names) is the redaction marker; mapping values are recursed into without
redacting their own key. -/
theorem C6_redacted_details_clean (details : List (String × AuditVal)) :
    entriesClean (redactEntries details) = true := by
  induction details using redactEntries.induct with
  | case1 => simp [redactEntries, entriesClean]
  | case2 k es t ih1 ih2 => simp [redactEntries, entriesClean, ih1, ih2]
  | case3 k v t hne ih =>
      cases v with
      | leaf str => cases hk : isSensitiveKey k <;> simp [redactEntries, entriesClean, hk, ih]
      | dict es => exact absurd rfl (hne es)

/-- C7: the tracker stores peak_equity as max(equity, equity), which is just
the current equity, so a snapshot taken after equity falls from 100000 to
90000 records a smaller peak_equity than its predecessor, violating the
claimed monotonicity.  The source comments mark the historical-peak
comparison as unimplemented, so this is a defect of the code. -/
theorem C7_peak_equity_not_monotone :
    (snapshot 90000 0 100000).peak_equity < (snapshot 100000 0 95000).peak_equity := by
  decide

/-- C8 counterexample: a trade submitted at 14:30 UTC, which the code maps
to 09:30 US Eastern, is inside the claimed first-15-minute rejection window
but passes the market-timing step and is approved. -/
theorem C8_market_timing_counterexample :
    (preTradeCheck defaultSettings Level.NONE "BUY" (7/10) 5 emptyPortfolio 0 14 30).approved
      = true ∧
    timingReject 14 30 = false := by
  exact ⟨by decide, by decide⟩

/-- C8 amended: with every other gate passing, pre_trade_check rejects on
market timing exactly during minutes 1 to 14 after the 14:30 UTC open and
minutes 1 to 9 before the 21:00 UTC close (14:31 to 14:44 and 20:51 to
20:59); the open minute itself, minute 15 after open and minute 10 before
close all pass. -/
theorem C8_market_timing_window :
    ∀ hr : ℕ, hr < 24 → ∀ mi : ℕ, mi < 60 →
      ((preTradeCheck defaultSettings Level.NONE "BUY" (7/10) 5 emptyPortfolio 0 hr mi).approved
          = false ↔
        ((hr = 14 ∧ 31 ≤ mi ∧ mi ≤ 44) ∨ (hr = 20 ∧ 51 ≤ mi))) := by
  decide

/-- C8 witness: the amended characterization applied at 14:31 UTC. -/
theorem C8_market_timing_window_witness :
    (preTradeCheck defaultSettings Level.NONE "BUY" (7/10) 5 emptyPortfolio 0 14 31).approved
        = false ↔
      ((14 = 14 ∧ 31 ≤ 31 ∧ 31 ≤ 44) ∨ (14 = 20 ∧ 51 ≤ 31)) :=
  C8_market_timing_window 14 (by decide) 31 (by decide)

/-- C9 counterexample: the reference FEATURE_NAMES list has 43 entries, not
48 as the claim states. -/
theorem C9_feature_count_counterexample :
    FEATURE_NAMES.length = 43 ∧ FEATURE_NAMES.length ≠ 48 := by
  exact ⟨by decide, by decide⟩

/-- C9 amended: for every non-empty indicators mapping, build_features
returns a mapping whose key set is exactly the reference FEATURE_NAMES list,
and that list has 43 entries (an empty indicators mapping returns an empty
dict instead). -/
theorem C9_feature_names_perm (indicators ctx : List (String × ℚ))
    (h : indicators ≠ []) :
    ((buildFeatures indicators ctx).map Prod.fst).isPerm FEATURE_NAMES = true ∧
    FEATURE_NAMES.length = 43 := by
  constructor
  · have hk : (buildFeatures indicators ctx).map Prod.fst =
        ["return_1d", "return_5d", "return_10d", "return_20d",
         "high_low_ratio", "close_open_ratio",
         "price_vs_sma20", "price_vs_sma50", "price_vs_sma200",
         "gap_percentage", "rsi_14", "macd_signal_diff", "macd_histogram",
         "bb_position", "adx_14", "cci_20", "stoch_k", "stoch_d",
         "obv_slope", "vwap_diff", "atr_14", "atr_ratio",
         "williams_r", "parabolic_sar_signal",
         "ema12_ema26_cross", "sma20_sma50_cross",
         "volume_vs_sma20", "volume_ratio_5d",
         "keltner_position", "roc_10",
         "rsi_macd_agreement", "volume_price_confirmation", "bb_squeeze",
         "trend_alignment_score", "volume_breakout_score",
         "momentum_divergence",
         "spy_return_1d", "vix_level", "vix_change",
         "trend_strength_composite", "mean_reversion_score",
         "breakout_probability", "support_resistance_proximity"] := by
      unfold buildFeatures
      rw [if_neg h]
      rfl
    rw [hk]
    decide
  · decide

/-- C9 witness: the amended statement applied to a one-entry indicator
mapping. -/
theorem C9_feature_names_perm_witness :
    ((buildFeatures [("rsi_14", 50)] []).map Prod.fst).isPerm FEATURE_NAMES = true ∧
    FEATURE_NAMES.length = 43 :=
  C9_feature_names_perm [("rsi_14", 50)] [] (by decide)

/-- C10 counterexample: with a negative configured max_position_pct of -8
and a YELLOW circuit breaker, the halving step raises the adjusted size from
-8 to -4, so the approved adjusted_size_pct exceeds the clamped
max_position_pct, refuting the never-increases claim for arbitrary
configurations. -/
theorem C10_size_increase_counterexample :
    (preTradeCheck negSettings Level.YELLOW "BUY" (7/10) 5 emptyPortfolio 0 15 0).approved
      = true ∧
    (preTradeCheck negSettings Level.YELLOW "BUY" (7/10) 5 emptyPortfolio 0 15 0).adjusted_size_pct
      = some (-4) ∧
    ¬ ((-4 : ℚ) ≤ maxPositionPct negSettings) := by
  refine ⟨by decide, by decide, by decide⟩

/-- C10 amended: whenever the requested position_pct and the configured
max_position_pct are nonnegative, every adjusted size approved by
pre_trade_check is at most the requested position_pct and at most the
clamped max_position_pct. -/
theorem C10_no_size_increase (s : RiskSettings) (breaker : Level) (action : String)
    (conf p : ℚ) (pf : PortfolioCtx) (vix : ℚ) (hr mi : ℕ) (a : ℚ)
    (hp : 0 ≤ p) (hs : 0 ≤ s.max_position_pct)
    (ha : (preTradeCheck s breaker action conf p pf vix hr mi).adjusted_size_pct = some a) :
    a ≤ p ∧ a ≤ maxPositionPct s := by
  rcases preTradeCheck_cases s breaker action conf p pf vix hr mi with ⟨_, hnone⟩ | ⟨_, hsome⟩
  · rw [hnone] at ha
    exact absurd ha (by simp)
  · rw [hsome] at ha
    obtain rfl := Option.some.inj ha
    exact sizeAfterCap_le_bounds s breaker p vix hp hs

/-- C10 witness: the amended bound applied to a benign approved check. -/
theorem C10_no_size_increase_witness :
    (preTradeCheck defaultSettings Level.NONE "BUY" (7/10) 5 emptyPortfolio 0 15 0).adjusted_size_pct
        = some 5 ∧
    ((5:ℚ) ≤ 5 ∧ (5:ℚ) ≤ maxPositionPct defaultSettings) :=
  have h : (preTradeCheck defaultSettings Level.NONE "BUY"
      (7/10) 5 emptyPortfolio 0 15 0).adjusted_size_pct = some 5 := by decide
  ⟨h, C10_no_size_increase defaultSettings Level.NONE "BUY" (7/10) 5 emptyPortfolio
      0 15 0 5 (by norm_num) (by decide) h⟩

end Aurora
